import Mathlib

/-!
Verification of the Break Session Lifecycle & Reconciliation Engine of the
breaktime-tracker-bot repository, as a shallow embedding in Lean 4.

Conventions of the embedding:
* Timestamps are `Int` seconds (the source stores second-precision
  wall-clock strings `YYYY-MM-DD HH:MM:SS`; string order equals time order).
* Durations are `Int` tenths of a minute: the source computes
  `round((end - start).total_seconds() / 60, 1)`, i.e. the number of
  seconds divided by 6 and rounded to the nearest integer with ties to
  even (Python's round-half-to-even on the exact rational; the float
  representation detail is immaterial for the values the claims use).
* Python dicts become association lists (`List (Int × _)`) with the
  dict's semantics: assignment replaces in place, new keys append,
  iteration follows insertion order.
* The per-day Excel log files become a total function from day key to a
  list of rows; a missing file is the empty list (the source skips both
  missing and empty files identically during replay).
-/

namespace Breaktime

/-- Break categories; the source keys them by the display labels
"🍽️ Eating", "🚻 Comfort Room", "🚬 Smoke Break", "⚠️ Other Concern"
(codes E, C, S, O). -/
inductive BreakType where
  | eating
  | comfortRoom
  | smoke
  | other
deriving DecidableEq, Repr

/-- The `Action` column of a logged row: `OUT` or `BACK`. -/
inductive BAction where
  | out
  | back
deriving DecidableEq, Repr

/-- One row of a daily break log, as written by `log_break_activity`
(columns: User ID, Username, Full Name, Break Type, Action, Timestamp,
Duration (minutes), Reason). Duration is in tenths of a minute and is
present only on BACK rows. -/
structure BreakEvent where
  userId : Int
  username : String
  fullName : String
  breakType : BreakType
  action : BAction
  timestamp : Int
  duration : Option Int
  reason : Option String
deriving DecidableEq, Repr

/-- The source's `round(secs / 60, 1)` expressed in tenths of a minute: the nearest
integer to `a / 6`, ties to even, as Python's banker's rounding computes
on the exact rational. -/
def roundHalfEven6 (a : Int) : Int :=
  if a.emod 6 < 3 then a.ediv 6
  else if 3 < a.emod 6 then a.ediv 6 + 1
  else if (a.ediv 6).emod 2 = 0 then a.ediv 6 else a.ediv 6 + 1

/-- The value `roundHalfEven6 a` really is a nearest integer to `a / 6`: it differs
from `a / 6` by at most half a unit, i.e. `|6 * result - a| ≤ 3`. -/
theorem roundHalfEven6_nearest (a : Int) :
    6 * roundHalfEven6 a - a ≤ 3 ∧ a - 6 * roundHalfEven6 a ≤ 3 := by
  have h1 : a = 6 * (a.ediv 6) + a.emod 6 := (Int.ediv_add_emod a 6).symm
  have h2 : 0 ≤ a.emod 6 := Int.emod_nonneg a (by decide)
  have h3 : a.emod 6 < 6 := Int.emod_lt_of_pos a (by decide)
  unfold roundHalfEven6
  split_ifs <;> omega

/-- Rounding a non-negative span of seconds gives a non-negative duration. -/
theorem roundHalfEven6_nonneg (a : Int) (h : 0 ≤ a) : 0 ≤ roundHalfEven6 a := by
  have h1 : a = 6 * (a.ediv 6) + a.emod 6 := (Int.ediv_add_emod a 6).symm
  have h2 : 0 ≤ a.emod 6 := Int.emod_nonneg a (by decide)
  have h3 : a.emod 6 < 6 := Int.emod_lt_of_pos a (by decide)
  have h4 : 0 ≤ a.ediv 6 := Int.ediv_nonneg h (by decide)
  unfold roundHalfEven6
  split_ifs <;> omega

/-! ### Python-dict semantics over association lists -/

/-- Python `d.get(k)`. -/
def dget {α : Type} (k : Int) : List (Int × α) → Option α
  | [] => none
  | (k', v) :: rest => if k' = k then some v else dget k rest

/-- Python `d[k] = v`: replace in place if the key exists, else append. -/
def dset {α : Type} (k : Int) (v : α) : List (Int × α) → List (Int × α)
  | [] => [(k, v)]
  | (k', w) :: rest =>
    if k' = k then (k', v) :: rest else (k', w) :: dset k v rest

/-- Python `if k in d: del d[k]` (removing every binding of `k`; a dict holds at
most one). -/
def ddel {α : Type} (k : Int) : List (Int × α) → List (Int × α)
  | [] => []
  | (k', w) :: rest => if k' = k then ddel k rest else (k', w) :: ddel k rest

theorem dget_dset_self {α : Type} (k : Int) (v : α) (d : List (Int × α)) :
    dget k (dset k v d) = some v := by
  induction d with
  | nil => simp [dget, dset]
  | cons hd tl ih =>
    obtain ⟨k', w⟩ := hd
    by_cases h : k' = k <;> simp [dget, dset, h, ih]

theorem dget_dset_ne {α : Type} (k k' : Int) (v : α) (d : List (Int × α))
    (h : k' ≠ k) : dget k (dset k' v d) = dget k d := by
  induction d with
  | nil => simp [dget, dset, h]
  | cons hd tl ih =>
    obtain ⟨k₀, w⟩ := hd
    by_cases h0 : k₀ = k'
    · subst h0
      simp [dget, dset, h]
    · simp only [dset, if_neg h0, dget]
      by_cases h1 : k₀ = k <;> simp [h1, ih]

/-! ### Circuit breaker (`microsoft/excel_handler.py`)

The globals `_consecutive_failures` and `_circuit_open_until` become an
explicit state record; `CIRCUIT_BREAKER_THRESHOLD = 3` and
`CIRCUIT_BREAKER_RESET_MINUTES = 5` (= 300 seconds here).  A source call
to `add_break_event` suspends at `await asyncio.wait_for` (line 173)
between the breaker check (line 138) and the outcome recording
(lines 180-193), and sync jobs are fire-and-forget tasks
(`loop.create_task`, line 247), so distinct calls interleave at exactly
that point.  The embedding therefore has both granularities: `begin_sync`
(everything up to and including forwarding to the gateway) and
`finish_sync` (recording the outcome) are the two phases a call is split
into by the await, while `add_break_event` is their composition for a
call that runs with no interleaving — `add_break_event_split` relates the
two.  The configuration guards (`EXCEL_SYNC_ENABLED`, `_initialized`) are
taken as satisfied: the claims are about the breaker around a configured
gateway. -/

def CIRCUIT_BREAKER_THRESHOLD : Nat := 3

def CIRCUIT_BREAKER_RESET_SECONDS : Int := 300

/-- The process-wide breaker state: `_consecutive_failures` and
`_circuit_open_until` (absent when closed). -/
structure CBState where
  consecutiveFailures : Nat
  openUntil : Option Int
deriving DecidableEq, Repr

/-- Outcome of one gateway round-trip: success, an error result or
exception, or `asyncio.TimeoutError` after the 5-second budget. -/
inductive SyncOutcome where
  | success
  | failure
  | timeout
deriving DecidableEq, Repr

/-- Source `_is_circuit_open`: open while `now < open_until`; once the expiry
has passed the open-until stamp is cleared (the failure counter is not
touched) and the call is let through. Returns the flag and the possibly
updated state. -/
def is_circuit_open (st : CBState) (now : Int) : Bool × CBState :=
  match st.openUntil with
  | none => (false, st)
  | some t => if t ≤ now then (false, { st with openUntil := none }) else (true, st)

/-- Source `_record_success`: reset the consecutive-failure counter. -/
def record_success (st : CBState) : CBState :=
  { st with consecutiveFailures := 0 }

/-- Source `_record_failure`: increment the counter; on reaching the threshold
set `open_until = now + 5 minutes`. -/
def record_failure (st : CBState) (now : Int) : CBState :=
  if CIRCUIT_BREAKER_THRESHOLD ≤ st.consecutiveFailures + 1 then
    { consecutiveFailures := st.consecutiveFailures + 1,
      openUntil := some (now + CIRCUIT_BREAKER_RESET_SECONDS) }
  else
    { st with consecutiveFailures := st.consecutiveFailures + 1 }

/-- Result of one `add_break_event` call: the breaker state afterwards,
the boolean returned to the caller, and whether the external gateway was
actually invoked. -/
structure SyncCall where
  state : CBState
  returned : Bool
  invoked : Bool
deriving DecidableEq, Repr

/-- Source `add_break_event`: reject immediately while the breaker is open;
otherwise forward to the gateway and record the outcome (an error result,
an exception and a timeout all go through `_record_failure`). -/
def add_break_event (st : CBState) (now : Int) (o : SyncOutcome) : SyncCall :=
  match is_circuit_open st now with
  | (true, st1) => ⟨st1, false, false⟩
  | (false, st1) =>
    match o with
    | .success => ⟨record_success st1, true, true⟩
    | .failure => ⟨record_failure st1 now, false, true⟩
    | .timeout => ⟨record_failure st1 now, false, true⟩

/-- The breaker starts closed with a zero counter. -/
def cb_init : CBState := ⟨0, none⟩

/-- Run a sequence of sync calls (time of call, gateway outcome). -/
def cb_run : CBState → List (Int × SyncOutcome) → CBState
  | st, [] => st
  | st, (t, o) :: rest => cb_run (add_break_event st t o).state rest

/-- First phase of a source `add_break_event` call, up to the `await`:
the breaker check (which clears an expired open-until stamp) and, when
the breaker is not open, the forwarding of the request to the gateway.
Returns the state the check leaves behind and whether the call was
forwarded.  The call then suspends; other sync tasks may run before its
outcome is recorded. -/
def begin_sync (st : CBState) (now : Int) : CBState × Bool :=
  match is_circuit_open st now with
  | (true, st1) => (st1, false)
  | (false, st1) => (st1, true)

/-- Second phase of a forwarded call, after the `await` returns: record
the outcome on the breaker state current at that moment (an error
result, an exception and a timeout all go through `_record_failure`). -/
def finish_sync (st : CBState) (now : Int) (o : SyncOutcome) : CBState :=
  match o with
  | .success => record_success st
  | .failure => record_failure st now
  | .timeout => record_failure st now

/-- The atomic `add_break_event` step is exactly `begin_sync` followed —
with nothing interleaved — by `finish_sync` when the call was forwarded,
and just the check when it was rejected. -/
theorem add_break_event_split (st : CBState) (now : Int) (o : SyncOutcome) :
    (add_break_event st now o).invoked = (begin_sync st now).2 ∧
    (add_break_event st now o).state =
      (if (begin_sync st now).2 then finish_sync (begin_sync st now).1 now o
        else (begin_sync st now).1) := by
  rcases hc : is_circuit_open st now with ⟨b, st1⟩
  cases b <;> cases o <;>
    simp [add_break_event, begin_sync, finish_sync, hc]

/-! ### Session Table and Session State Machine (`breaktime_tracker_bot.py`)

`user_sessions` maps a user id to a session dict.  After a BACK the code
stores the stub `{'active': False}` (no other keys), so an entry is
either that stub or a full active session; `is_active` is the source's
`active_session and active_session.get('active')`.  The key
`reminder_sent` is written only for categories E and S; a missing key
reads as falsy through `.get`, which `reminderSent = false` models
exactly. -/

/-- A full active session dict: break_type, start_time, reason (only for
Other), full_name, group_chat_id, reminder_sent. -/
structure SessionData where
  breakType : BreakType
  startTime : Int
  reason : Option String
  fullName : String
  groupChatId : Option Int
  reminderSent : Bool
deriving DecidableEq, Repr

/-- An entry of `user_sessions`: the `{'active': False}` stub left behind
by a BACK, or an active session. -/
inductive SessionEntry where
  | inactive
  | active (s : SessionData)
deriving DecidableEq, Repr

/-- The provisional record of the two-phase Other start, held in
`context.user_data` (`break_type`, `start_time`, `group_chat_id`) while
the bot waits for the reason text. -/
structure PendingDraft where
  breakType : BreakType
  startTime : Int
  groupChatId : Option Int
deriving DecidableEq, Repr

/-- The bot's mutable state: the Session Table, the per-user pending
drafts, and today's append-only log. -/
structure BotState where
  sessions : List (Int × SessionEntry)
  drafts : List (Int × PendingDraft)
  log : List BreakEvent
deriving DecidableEq, Repr

/-- The source's `active_session = user_sessions.get(user_id); active_session and
active_session.get('active')`. -/
def is_active (st : BotState) (uid : Int) : Bool :=
  match dget uid st.sessions with
  | some (.active _) => true
  | _ => false

/-- Outcome of a StartBreak attempt, as rendered to the user. -/
inductive StartResult where
  | alreadyActive (activeType : BreakType)
  | reasonRequired
  | started
  | awaitingReason
deriving DecidableEq, Repr

/-- Outcome of an EndBreak attempt. `ended` carries the duration in
tenths of a minute and the original start time. -/
inductive EndResult where
  | noActiveBreak
  | categoryMismatch (requested activeType : BreakType)
  | ended (durationTenths : Int) (startTime : Int)
deriving DecidableEq, Repr

/-- StartBreak: the OUT branch shared by `handle_break_command`
(lines 454-499) and, with `reason = none`, by `button_callback` for the
non-Other buttons (lines 184-233).  Already-active users are rejected
with the active session's category; an Other start with no reason is
rejected (`ReasonRequired` prompt); otherwise the session is created and
one OUT row is appended. -/
def start_break (uid : Int) (un fn : String) (bt : BreakType)
    (reason : Option String) (gc : Option Int) (now : Int)
    (st : BotState) : BotState × StartResult :=
  match dget uid st.sessions with
  | some (.active s) => (st, .alreadyActive s.breakType)
  | _ =>
    if bt = .other ∧ reason = none then (st, .reasonRequired)
    else
      ({ st with
          sessions := dset uid (.active ⟨bt, now, reason, fn, gc, false⟩) st.sessions,
          log := st.log ++ [⟨uid, un, fn, bt, .out, now, none, reason⟩] },
        .started)

/-- The `O1` button branch of `button_callback` (lines 197-209): phase
one of the two-phase Other start.  Rejects an already-active user;
otherwise records the provisional draft (original timestamp, category,
conversation) in `context.user_data` and waits for the reason.  No
session is created and nothing is logged yet. -/
def press_o1 (uid : Int) (_fn : String) (gc : Option Int) (now : Int)
    (st : BotState) : BotState × StartResult :=
  match dget uid st.sessions with
  | some (.active s) => (st, .alreadyActive s.breakType)
  | _ =>
    ({ st with drafts := dset uid ⟨.other, now, gc⟩ st.drafts }, .awaitingReason)

/-- Source `handle_reason` (lines 282-317): phase two of the Other start.  Reads
the draft from `context.user_data` (a missing draft would raise a
KeyError, hence `Option`), then unconditionally installs the session with
the draft's original start time and logs the OUT row with that original
timestamp and the supplied reason.  Note: the source performs no
active-session re-check here. -/
def handle_reason (uid : Int) (un fn : String) (reason : String)
    (st : BotState) : Option BotState :=
  match dget uid st.drafts with
  | none => none
  | some d =>
    some { st with
      sessions := dset uid
        (.active ⟨d.breakType, d.startTime, some reason, fn, d.groupChatId, false⟩)
        st.sessions,
      log := st.log ++ [⟨uid, un, fn, d.breakType, .out, d.startTime, none, some reason⟩] }

/-- EndBreak: the BACK branch shared by `button_callback`
(lines 236-279) and `handle_break_command` (lines 502-539).  No active
session rejects with `NoActiveBreak`; a category mismatch rejects,
reporting both categories; otherwise the duration is computed from the
stored start time, one BACK row carrying it and the stored reason is
appended, and the entry is replaced by the `{'active': False}` stub. -/
def end_break (uid : Int) (un fn : String) (bt : BreakType) (now : Int)
    (st : BotState) : BotState × EndResult :=
  match dget uid st.sessions with
  | some (.active s) =>
    if bt = s.breakType then
      ({ st with
          sessions := dset uid .inactive st.sessions,
          log := st.log ++
            [⟨uid, un, fn, bt, .back, now, some (roundHalfEven6 (now - s.startTime)), s.reason⟩] },
        .ended (roundHalfEven6 (now - s.startTime)) s.startTime)
    else (st, .categoryMismatch bt s.breakType)
  | _ => (st, .noActiveBreak)

/-! ### Reminder Scheduler (`check_break_reminders`, lines 550-584) -/

/-- The `reminder_config` dict: Smoke 15 minutes, Eating 60 minutes,
Comfort Room and Other have no reminder. -/
def reminder_config : BreakType → Option Int
  | .smoke => some 15
  | .eating => some 60
  | _ => none

/-- One reminder message: the chat it is sent to (the stored group chat
if present, else the user directly) and whose session it concerns. -/
structure Notification where
  target : Int
  userId : Int
  breakType : BreakType
deriving DecidableEq, Repr

/-- The body of the per-session loop of `check_break_reminders`: an
active session whose flag is unset, whose category has a threshold and
whose elapsed time has reached it (`(now - start)/60 >= threshold`, i.e.
`threshold * 60 <= now - start`) gets one message and its
`reminder_sent` flag set; every other entry is left exactly as it is. -/
def tick_entry (now : Int) (uid : Int) :
    SessionEntry → SessionEntry × Option Notification
  | .inactive => (.inactive, none)
  | .active s =>
    if s.reminderSent then (.active s, none)
    else
      match reminder_config s.breakType with
      | none => (.active s, none)
      | some th =>
        if th * 60 ≤ now - s.startTime then
          (.active { s with reminderSent := true },
            some ⟨s.groupChatId.getD uid, uid, s.breakType⟩)
        else (.active s, none)

/-- One scheduler tick: iterate `user_sessions.items()` in order,
dispatching and latching as `tick_entry` does per entry. -/
def check_break_reminders (now : Int) :
    List (Int × SessionEntry) → List (Int × SessionEntry) × List Notification
  | [] => ([], [])
  | (uid, e) :: rest =>
    ((uid, (tick_entry now uid e).1) :: (check_break_reminders now rest).1,
      (tick_entry now uid e).2.toList ++ (check_break_reminders now rest).2)

/-- Run the scheduler at each time in the list, in order, accumulating
all dispatched notifications. -/
def tick_many : List Int → List (Int × SessionEntry) →
    List (Int × SessionEntry) × List Notification
  | [], d => (d, [])
  | t :: ts, d =>
    ((tick_many ts (check_break_reminders t d).1).1,
      (check_break_reminders t d).2 ++ (tick_many ts (check_break_reminders t d).1).2)

/-- The notifications of a batch that concern one user's session. -/
def notifsFor (uid : Int) : List Notification → List Notification
  | [] => []
  | n :: ns => if n.userId = uid then n :: notifsFor uid ns else notifsFor uid ns

/-! ### Reconciliation Job (`start_all.py: fix_stuck_active_breaks`,
`dashboard/api.py: force_close_all_breaks`)

Both code paths run the same algorithm: for `days_back` in
`range(check_days)` — i.e. **today first, then progressively older
days** — read that day's partition, sort its rows by timestamp, and
replay them into a dict `all_breaks`: an OUT overwrites the user's
pending candidate, a BACK deletes it if present.  Every user left in
`all_breaks` then gets one synthetic BACK row appended to **today's**
partition, timestamped now, with duration computed from the candidate's
OUT timestamp (the malformed-timestamp fallback to 0 is unreachable for
the well-formed integer timestamps of the model) and a distinguishing
auto-closed reason.  Day partitions are a total function from day key to
row list; a missing file behaves as the empty list. -/

/-- The reason string of a synthetic BACK (the source interpolates the
origin date into it; the marker itself is what matters for replay). -/
def AUTO_CLOSED_REASON : String := "Auto-closed by system"

/-- Insert a row into a timestamp-sorted list, after all rows of equal
or earlier timestamp (stable, like `DataFrame.sort_values`). -/
def insertByTime (r : BreakEvent) : List BreakEvent → List BreakEvent
  | [] => [r]
  | x :: xs =>
    if x.timestamp < r.timestamp then x :: insertByTime r xs else r :: x :: xs

/-- Stable sort of a day's rows by timestamp, as
`df.sort_values('Timestamp')` orders the second-precision timestamp
strings chronologically. -/
def sortByTime : List BreakEvent → List BreakEvent
  | [] => []
  | r :: rs => insertByTime r (sortByTime rs)

/-- Replay one day's sorted rows into the pending dict `all_breaks`:
`OUT` sets the user's candidate, `BACK` deletes it when present. -/
def replay_rows (rows : List BreakEvent)
    (m : List (Int × BreakEvent)) : List (Int × BreakEvent) :=
  rows.foldl
    (fun m r =>
      match r.action with
      | .out => dset r.userId r m
      | .back => ddel r.userId m)
    m

/-- The day keys visited, in the source's order: `today - days_back` for
`days_back` in `range(check_days)` — newest first. -/
def stuck_days (check_days : Nat) (today : Int) : List Int :=
  (List.range check_days).map (fun k => today - (k : Int))

/-- The `all_breaks` dict left after scanning the whole window. -/
def collect_stuck (check_days : Nat) (today : Int)
    (store : Int → List BreakEvent) : List (Int × BreakEvent) :=
  (stuck_days check_days today).foldl
    (fun m day => replay_rows (sortByTime (store day)) m) []

/-- The synthetic BACK row written for one orphan candidate. -/
def synth_back (now : Int) (uid : Int) (r : BreakEvent) : BreakEvent :=
  { userId := uid
    username := r.username
    fullName := r.fullName
    breakType := r.breakType
    action := .back
    timestamp := now
    duration := some (roundHalfEven6 (now - r.timestamp))
    reason := some AUTO_CLOSED_REASON }

/-- The whole force-close job: scan the window, then append one
synthetic BACK per orphan to today's partition (never to the original
day's partition).  With no orphans the store is untouched. -/
def fix_stuck_active_breaks (check_days : Nat) (now : Int) (today : Int)
    (store : Int → List BreakEvent) : Int → List BreakEvent :=
  match collect_stuck check_days today store with
  | [] => store
  | stuck =>
    fun day =>
      if day = today then
        store today ++ stuck.map (fun p => synth_back now p.1 p.2)
      else store day

/-- Count the BACK rows a partition holds for one user. -/
def countBacksFor (uid : Int) : List BreakEvent → Nat
  | [] => 0
  | r :: rs =>
    (if r.userId = uid ∧ r.action = .back then 1 else 0) + countBacksFor uid rs

/-! ### Reduction lemmas for the circuit breaker -/

theorem is_circuit_open_expired (f : Nat) (T now : Int) (h : T ≤ now) :
    is_circuit_open ⟨f, some T⟩ now = (false, ⟨f, none⟩) := by
  simp [is_circuit_open, h]

theorem is_circuit_open_blocked (f : Nat) (T now : Int) (h : now < T) :
    is_circuit_open ⟨f, some T⟩ now = (true, ⟨f, some T⟩) := by
  simp only [is_circuit_open]
  rw [if_neg (by omega)]

theorem add_break_event_forwarded (st st1 : CBState) (now : Int) (o : SyncOutcome)
    (hc : is_circuit_open st now = (false, st1)) :
    add_break_event st now o =
      match o with
      | .success => ⟨record_success st1, true, true⟩
      | .failure => ⟨record_failure st1 now, false, true⟩
      | .timeout => ⟨record_failure st1 now, false, true⟩ := by
  unfold add_break_event
  rw [hc]

theorem add_break_event_rejected (st st1 : CBState) (now : Int) (o : SyncOutcome)
    (hc : is_circuit_open st now = (true, st1)) :
    add_break_event st now o = ⟨st1, false, false⟩ := by
  unfold add_break_event
  rw [hc]

theorem record_failure_trips (f : Nat) (now : Int) (h : 2 ≤ f) :
    record_failure ⟨f, none⟩ now = ⟨f + 1, some (now + 300)⟩ := by
  simp only [record_failure, CIRCUIT_BREAKER_THRESHOLD, CIRCUIT_BREAKER_RESET_SECONDS]
  rw [if_pos (show 3 ≤ f + 1 by omega)]

/-- Claim C5: starting from the closed breaker, three consecutive sync
failures (a timeout counting as a failure) are each forwarded to the
gateway and leave the breaker Open with expiry `t3 + 300` seconds (5
minutes after the tripping call); every call attempted while the expiry
has not passed returns failure immediately, never invokes the gateway
(whatever the gateway's would-be outcome), and leaves the whole breaker
state — in particular the failure counter — unchanged. -/
theorem c5_trip_then_reject (t1 t2 t3 now : Int) (o : SyncOutcome)
    (h : now < t3 + 300) :
    (add_break_event cb_init t1 .failure).invoked = true ∧
    (add_break_event (add_break_event cb_init t1 .failure).state t2 .timeout).invoked
      = true ∧
    (add_break_event (add_break_event (add_break_event cb_init t1 .failure).state
        t2 .timeout).state t3 .failure).invoked = true ∧
    (add_break_event (add_break_event (add_break_event cb_init t1 .failure).state
        t2 .timeout).state t3 .failure).state = ⟨3, some (t3 + 300)⟩ ∧
    add_break_event ⟨3, some (t3 + 300)⟩ now o =
      ⟨⟨3, some (t3 + 300)⟩, false, false⟩ := by
  refine ⟨rfl, rfl, rfl, rfl, ?_⟩
  exact add_break_event_rejected _ _ now o (is_circuit_open_blocked 3 (t3 + 300) now h)

theorem c5_witness :
    (100 : Int) < 2 + 300 ∧
    ((add_break_event cb_init 0 .failure).invoked = true ∧
      (add_break_event (add_break_event cb_init 0 .failure).state 1 .timeout).invoked
        = true ∧
      (add_break_event (add_break_event (add_break_event cb_init 0 .failure).state
          1 .timeout).state 2 .failure).invoked = true ∧
      (add_break_event (add_break_event (add_break_event cb_init 0 .failure).state
          1 .timeout).state 2 .failure).state = ⟨3, some (2 + 300)⟩ ∧
      add_break_event ⟨3, some (2 + 300)⟩ 100 .success =
        ⟨⟨3, some (2 + 300)⟩, false, false⟩) :=
  ⟨by decide, c5_trip_then_reject 0 1 2 100 .success (by decide)⟩

/-- Claim C4 counterexample: "exactly one trial call" and "no other call
is forwarded to the gateway before the trial's outcome is recorded" fail
on the code.  Three failures trip the breaker to `⟨3, some 302⟩`; after
the expiry a first call begins at time 400 and is forwarded (the check
clears the stamp), and — its outcome not yet recorded, the call being
suspended at the `await` — a second call beginning at time 401 passes
the check and is forwarded as well: the source has no half-open latch. -/
theorem c4_counterexample :
    cb_run cb_init [(0, .failure), (1, .failure), (2, .failure)] = ⟨3, some 302⟩ ∧
    (begin_sync ⟨3, some 302⟩ 400).2 = true ∧
    (begin_sync (begin_sync ⟨3, some 302⟩ 400).1 401).2 = true := by
  decide

/-- Claim C4 (amended): once the cool-down expiry has passed, the first
call to check the breaker clears the stamp (keeping the counter) and is
forwarded to the gateway as the trial; if its outcome is recorded before
anything else runs, a success resets the counter and returns the breaker
to Closed, and a failure or timeout re-opens it with a fresh 5-minute
expiry provided the counter is still at the threshold.  The code has no
half-open latch, so any further call that begins before the trial's
outcome is recorded finds the stamp cleared and is forwarded too (see
the counterexample). -/
theorem c4_trial_after_expiry (f : Nat) (T now now2 : Int) (hE : T ≤ now) :
    begin_sync ⟨f, some T⟩ now = (⟨f, none⟩, true) ∧
    finish_sync ⟨f, none⟩ now .success = ⟨0, none⟩ ∧
    (CIRCUIT_BREAKER_THRESHOLD ≤ f →
      finish_sync ⟨f, none⟩ now .failure = ⟨f + 1, some (now + 300)⟩ ∧
      finish_sync ⟨f, none⟩ now .timeout = ⟨f + 1, some (now + 300)⟩) ∧
    (begin_sync ⟨f, none⟩ now2).2 = true := by
  refine ⟨?_, rfl, fun h3 => ?_, rfl⟩
  · unfold begin_sync
    rw [is_circuit_open_expired f T now hE]
  · have h3' : 3 ≤ f := h3
    constructor <;>
      · show record_failure ⟨f, none⟩ now = ⟨f + 1, some (now + 300)⟩
        rw [record_failure_trips f now (by omega)]

theorem c4_witness :
    (302 : Int) ≤ 400 ∧
    (begin_sync ⟨3, some 302⟩ 400 = (⟨3, none⟩, true) ∧
      finish_sync ⟨3, none⟩ 400 .success = ⟨0, none⟩ ∧
      (CIRCUIT_BREAKER_THRESHOLD ≤ 3 →
        finish_sync ⟨3, none⟩ 400 .failure = ⟨3 + 1, some (400 + 300)⟩ ∧
        finish_sync ⟨3, none⟩ 400 .timeout = ⟨3 + 1, some (400 + 300)⟩) ∧
      (begin_sync ⟨3, none⟩ 401).2 = true) :=
  ⟨by decide, c4_trial_after_expiry 3 302 400 401 (by decide)⟩

/-- Claim C10 counterexample: "after any trip the counter remains at or
above the threshold" and "a single subsequent sync failure immediately
re-opens" fail on an interleaved trace.  A call begins while the breaker
is closed and is forwarded; three failures then trip the breaker to
`⟨3, some 303⟩`; the first call's stale success is recorded after the
trip, resetting the counter to 0 with the stamp still set; after the
expiry a call is forwarded from `⟨0, none⟩`, and its single failure
leaves the breaker closed (`openUntil = none`) instead of re-opening. -/
theorem c10_counterexample :
    (begin_sync cb_init 0).2 = true ∧
    cb_run cb_init [(1, .failure), (2, .failure), (3, .failure)] = ⟨3, some 303⟩ ∧
    finish_sync ⟨3, some 303⟩ 4 .success = ⟨0, some 303⟩ ∧
    (finish_sync ⟨3, some 303⟩ 4 .success).consecutiveFailures <
      CIRCUIT_BREAKER_THRESHOLD ∧
    begin_sync ⟨0, some 303⟩ 400 = (⟨0, none⟩, true) ∧
    (finish_sync ⟨0, none⟩ 400 .failure).openUntil = none := by
  decide

/-- Claim C10 (amended): when the cool-down expiry passes, the check
clears the open-until stamp but does not reset the consecutive-failure
counter; when no sync success has been recorded since the trip — so the
counter is still at or above the threshold — a single subsequent sync
failure, not three, immediately re-opens the breaker for a fresh
5-minute window.  A success recorded after the trip by a call forwarded
before it resets the counter to 0 while the stamp stays set, and then
one failure after the expiry does not re-open (see the
counterexample). -/
theorem c10_expiry_keeps_counter (f : Nat) (T now : Int) (hE : T ≤ now) :
    is_circuit_open ⟨f, some T⟩ now = (false, ⟨f, none⟩) ∧
    (CIRCUIT_BREAKER_THRESHOLD ≤ f →
      (add_break_event ⟨f, some T⟩ now .failure).state =
        ⟨f + 1, some (now + CIRCUIT_BREAKER_RESET_SECONDS)⟩) := by
  have hc := is_circuit_open_expired f T now hE
  refine ⟨hc, fun h3 => ?_⟩
  have h3' : 3 ≤ f := h3
  rw [add_break_event_forwarded _ _ _ .failure hc]
  show record_failure ⟨f, none⟩ now = ⟨f + 1, some (now + CIRCUIT_BREAKER_RESET_SECONDS)⟩
  rw [record_failure_trips f now (by omega)]
  rfl

theorem c10_witness :
    (310 : Int) ≤ 500 ∧
    (is_circuit_open ⟨3, some 310⟩ 500 = (false, ⟨3, none⟩) ∧
      (CIRCUIT_BREAKER_THRESHOLD ≤ 3 →
        (add_break_event ⟨3, some 310⟩ 500 .failure).state =
          ⟨3 + 1, some (500 + CIRCUIT_BREAKER_RESET_SECONDS)⟩)) :=
  ⟨by decide, c10_expiry_keeps_counter 3 310 500 (by decide)⟩

/-! ### Reduction lemmas for the session state machine -/

theorem start_break_active (uid : Int) (un fn : String) (bt : BreakType)
    (reason : Option String) (gc : Option Int) (now : Int) (st : BotState)
    (s : SessionData) (h : dget uid st.sessions = some (.active s)) :
    start_break uid un fn bt reason gc now st = (st, .alreadyActive s.breakType) := by
  unfold start_break
  simp only [h]

theorem press_o1_active (uid : Int) (fn : String) (gc : Option Int) (now : Int)
    (st : BotState) (s : SessionData)
    (h : dget uid st.sessions = some (.active s)) :
    press_o1 uid fn gc now st = (st, .alreadyActive s.breakType) := by
  unfold press_o1
  simp only [h]

theorem start_break_not_active (uid : Int) (un fn : String) (bt : BreakType)
    (reason : Option String) (gc : Option Int) (now : Int) (st : BotState)
    (hA : is_active st uid = false)
    (hbr : ¬(bt = .other ∧ reason = none)) :
    start_break uid un fn bt reason gc now st =
      ({ st with
          sessions := dset uid (.active ⟨bt, now, reason, fn, gc, false⟩) st.sessions,
          log := st.log ++ [⟨uid, un, fn, bt, .out, now, none, reason⟩] },
        .started) := by
  unfold start_break
  rcases hd : dget uid st.sessions with _ | e
  · simp only [hd, if_neg hbr]
  · cases e with
    | inactive => simp only [hd, if_neg hbr]
    | active s => simp [is_active, hd] at hA

theorem start_break_reason_required (uid : Int) (un fn : String) (gc : Option Int)
    (now : Int) (st : BotState) (hA : is_active st uid = false) :
    start_break uid un fn .other none gc now st = (st, .reasonRequired) := by
  unfold start_break
  rcases hd : dget uid st.sessions with _ | e
  · simp [hd]
  · cases e with
    | inactive => simp [hd]
    | active s => simp [is_active, hd] at hA

theorem press_o1_not_active (uid : Int) (fn : String) (gc : Option Int) (now : Int)
    (st : BotState) (hA : is_active st uid = false) :
    press_o1 uid fn gc now st =
      ({ st with drafts := dset uid ⟨.other, now, gc⟩ st.drafts }, .awaitingReason) := by
  unfold press_o1
  rcases hd : dget uid st.sessions with _ | e
  · simp only [hd]
  · cases e with
    | inactive => simp only [hd]
    | active s => simp [is_active, hd] at hA

theorem end_break_matched (uid : Int) (un fn : String) (bt : BreakType) (now : Int)
    (st : BotState) (s : SessionData)
    (h : dget uid st.sessions = some (.active s)) (hbt : bt = s.breakType) :
    end_break uid un fn bt now st =
      ({ st with
          sessions := dset uid .inactive st.sessions,
          log := st.log ++ [⟨uid, un, fn, bt, .back, now,
            some (roundHalfEven6 (now - s.startTime)), s.reason⟩] },
        .ended (roundHalfEven6 (now - s.startTime)) s.startTime) := by
  unfold end_break
  simp only [h, if_pos hbt]

theorem end_break_mismatched (uid : Int) (un fn : String) (bt : BreakType) (now : Int)
    (st : BotState) (s : SessionData)
    (h : dget uid st.sessions = some (.active s)) (hbt : bt ≠ s.breakType) :
    end_break uid un fn bt now st = (st, .categoryMismatch bt s.breakType) := by
  unfold end_break
  simp only [h, if_neg hbt]

/-- Claim C1 (amended): for a person with an active session, every direct
StartBreak attempt — any category, via button or command, including
phase one of the two-phase Other flow — fails with AlreadyActive
carrying the active session's category and leaves the whole state (the
session included) unchanged.  The completion of the two-phase flow
(`handle_reason`), however, performs no such check (see the
counterexample). -/
theorem c1_direct_start_rejects (uid : Int) (un fn : String) (bt : BreakType)
    (reason : Option String) (gc : Option Int) (now : Int) (st : BotState)
    (s : SessionData) (h : dget uid st.sessions = some (.active s)) :
    start_break uid un fn bt reason gc now st = (st, .alreadyActive s.breakType) ∧
    press_o1 uid fn gc now st = (st, .alreadyActive s.breakType) :=
  ⟨start_break_active uid un fn bt reason gc now st s h,
    press_o1_active uid fn gc now st s h⟩

theorem c1_witness :
    dget 7 (⟨[(7, .active ⟨.smoke, 0, none, "A", none, false⟩)], [], []⟩ :
        BotState).sessions = some (.active ⟨.smoke, 0, none, "A", none, false⟩) ∧
    (start_break 7 "u" "A" .eating none none 50
        ⟨[(7, .active ⟨.smoke, 0, none, "A", none, false⟩)], [], []⟩ =
      (⟨[(7, .active ⟨.smoke, 0, none, "A", none, false⟩)], [], []⟩,
        .alreadyActive BreakType.smoke) ∧
    press_o1 7 "A" none 50
        ⟨[(7, .active ⟨.smoke, 0, none, "A", none, false⟩)], [], []⟩ =
      (⟨[(7, .active ⟨.smoke, 0, none, "A", none, false⟩)], [], []⟩,
        .alreadyActive BreakType.smoke)) :=
  ⟨by decide,
    c1_direct_start_rejects 7 "u" "A" .eating none none 50
      ⟨[(7, .active ⟨.smoke, 0, none, "A", none, false⟩)], [], []⟩
      ⟨.smoke, 0, none, "A", none, false⟩ (by decide)⟩

/-- Claim C1 counterexample: a reachable trace on which the claim as
stated is false.  User 7 presses O1 at time 100 (draft recorded, no
session), starts an Eating break by command at time 200 (now active),
then sends the awaited reason text: `handle_reason` succeeds — it does
not fail with AlreadyActive — and replaces the active Eating session
with an Other session, so the existing session is not left unchanged. -/
theorem c1_counterexample :
    is_active (start_break 7 "u" "F" .eating none none 200
      (press_o1 7 "F" none 100 (⟨[], [], []⟩ : BotState)).1).1 7 = true ∧
    (handle_reason 7 "u" "F" "errand"
      (start_break 7 "u" "F" .eating none none 200
        (press_o1 7 "F" none 100 (⟨[], [], []⟩ : BotState)).1).1).isSome = true ∧
    dget 7 ((handle_reason 7 "u" "F" "errand"
        (start_break 7 "u" "F" .eating none none 200
          (press_o1 7 "F" none 100 (⟨[], [], []⟩ : BotState)).1).1).getD
          (⟨[], [], []⟩ : BotState)).sessions ≠
      dget 7 (start_break 7 "u" "F" .eating none none 200
        (press_o1 7 "F" none 100 (⟨[], [], []⟩ : BotState)).1).1.sessions := by
  decide

/-- Claim C3: for a person with no active session, StartBreak followed by
EndBreak of the same category appends exactly the one OUT row and one
BACK row shown (so exactly one of each for that person), the BACK
duration is the timestamp delta in minutes rounded to one decimal
(tenths of a minute here, a nearest-tenth rounding by
`roundHalfEven6_nearest`), and it is non-negative whenever the end
timestamp is not before the start. -/
theorem c3_round_trip (uid : Int) (un fn : String) (bt : BreakType)
    (reason : Option String) (gc : Option Int) (t1 t2 : Int) (st : BotState)
    (hA : is_active st uid = false)
    (hbr : ¬(bt = .other ∧ reason = none)) :
    (start_break uid un fn bt reason gc t1 st).2 = .started ∧
    (end_break uid un fn bt t2 (start_break uid un fn bt reason gc t1 st).1).2 =
      .ended (roundHalfEven6 (t2 - t1)) t1 ∧
    (end_break uid un fn bt t2 (start_break uid un fn bt reason gc t1 st).1).1.log =
      st.log ++ [⟨uid, un, fn, bt, .out, t1, none, reason⟩,
        ⟨uid, un, fn, bt, .back, t2, some (roundHalfEven6 (t2 - t1)), reason⟩] ∧
    (6 * roundHalfEven6 (t2 - t1) - (t2 - t1) ≤ 3 ∧
      (t2 - t1) - 6 * roundHalfEven6 (t2 - t1) ≤ 3) ∧
    (t1 ≤ t2 → 0 ≤ roundHalfEven6 (t2 - t1)) := by
  rw [start_break_not_active uid un fn bt reason gc t1 st hA hbr]
  rw [end_break_matched uid un fn bt t2 _ ⟨bt, t1, reason, fn, gc, false⟩
    (dget_dset_self uid _ st.sessions) rfl]
  exact ⟨rfl, rfl, by simp, roundHalfEven6_nearest _,
    fun hle => roundHalfEven6_nonneg _ (by omega)⟩

theorem c3_witness :
    is_active (⟨[], [], []⟩ : BotState) 42 = false ∧
    ¬(BreakType.eating = .other ∧ (none : Option String) = none) ∧
    roundHalfEven6 (33510 - 32400) = 185 ∧
    (end_break 42 "u" "Bob" .eating 33510
        (start_break 42 "u" "Bob" .eating none none 32400 (⟨[], [], []⟩ : BotState)).1).2 =
      .ended 185 32400 :=
  ⟨by decide, by decide, by decide,
    (by decide : roundHalfEven6 (33510 - 32400) = 185) ▸
      (c3_round_trip 42 "u" "Bob" .eating none none 32400 33510
        (⟨[], [], []⟩ : BotState) (by decide) (by decide)).2.1⟩

/-- Claim C6: EndBreak with a category different from the active
session's fails with CategoryMismatch carrying both categories and
leaves the whole state unchanged — no row is appended and the session
survives — so a subsequent EndBreak with the session's own category
still succeeds with the computed duration and original start time. -/
theorem c6_category_mismatch (uid : Int) (un fn : String) (bt : BreakType)
    (now now2 : Int) (st : BotState) (s : SessionData)
    (h : dget uid st.sessions = some (.active s)) (hne : bt ≠ s.breakType) :
    end_break uid un fn bt now st = (st, .categoryMismatch bt s.breakType) ∧
    (end_break uid un fn s.breakType now2 st).2 =
      .ended (roundHalfEven6 (now2 - s.startTime)) s.startTime := by
  refine ⟨end_break_mismatched uid un fn bt now st s h hne, ?_⟩
  rw [end_break_matched uid un fn s.breakType now2 st s h rfl]

theorem c6_witness :
    dget 3 (⟨[(3, .active ⟨.smoke, 50, none, "B", none, false⟩)], [], []⟩ :
        BotState).sessions = some (.active ⟨.smoke, 50, none, "B", none, false⟩) ∧
    BreakType.eating ≠ BreakType.smoke ∧
    (end_break 3 "u" "B" .eating 110
        ⟨[(3, .active ⟨.smoke, 50, none, "B", none, false⟩)], [], []⟩ =
      (⟨[(3, .active ⟨.smoke, 50, none, "B", none, false⟩)], [], []⟩,
        .categoryMismatch .eating .smoke) ∧
    (end_break 3 "u" "B" .smoke 110
        ⟨[(3, .active ⟨.smoke, 50, none, "B", none, false⟩)], [], []⟩).2 =
      .ended (roundHalfEven6 (110 - 50)) 50) :=
  ⟨by decide, by decide,
    c6_category_mismatch 3 "u" "B" .eating 110 110
      ⟨[(3, .active ⟨.smoke, 50, none, "B", none, false⟩)], [], []⟩
      ⟨.smoke, 50, none, "B", none, false⟩ (by decide) (by decide)⟩

/-- Claim C8: an Other StartBreak with an empty reason fails with
ReasonRequired and creates no session; the button flow's phase one
records only the draft (original timestamp, conversation) without
touching sessions or log; and when the reason arrives as a follow-up,
`handle_reason` creates the session with the original press timestamp
`t1` — the follow-up's arrival time is never read — and logs the OUT row
with that original timestamp and the supplied reason. -/
theorem c8_two_phase_other (uid : Int) (un fn : String) (gc : Option Int)
    (t1 : Int) (r : String) (st : BotState)
    (hA : is_active st uid = false) :
    start_break uid un fn .other none gc t1 st = (st, .reasonRequired) ∧
    (press_o1 uid fn gc t1 st).2 = .awaitingReason ∧
    (press_o1 uid fn gc t1 st).1.sessions = st.sessions ∧
    (press_o1 uid fn gc t1 st).1.log = st.log ∧
    handle_reason uid un fn r (press_o1 uid fn gc t1 st).1 =
      some { (press_o1 uid fn gc t1 st).1 with
        sessions := dset uid (.active ⟨.other, t1, some r, fn, gc, false⟩)
          (press_o1 uid fn gc t1 st).1.sessions,
        log := (press_o1 uid fn gc t1 st).1.log ++
          [⟨uid, un, fn, .other, .out, t1, none, some r⟩] } := by
  have hp := press_o1_not_active uid fn gc t1 st hA
  refine ⟨start_break_reason_required uid un fn gc t1 st hA, ?_, ?_, ?_, ?_⟩ <;>
    rw [hp]
  unfold handle_reason
  rw [show dget uid ({ st with
      drafts := dset uid ⟨.other, t1, gc⟩ st.drafts } : BotState).drafts =
      some ⟨.other, t1, gc⟩ from dget_dset_self uid _ st.drafts]

theorem c8_witness :
    is_active (⟨[], [], []⟩ : BotState) 7 = false ∧
    (start_break 7 "u" "G" .other none none 100 (⟨[], [], []⟩ : BotState) =
      ((⟨[], [], []⟩ : BotState), .reasonRequired) ∧
    (press_o1 7 "G" none 100 (⟨[], [], []⟩ : BotState)).2 = .awaitingReason ∧
    (press_o1 7 "G" none 100 (⟨[], [], []⟩ : BotState)).1.sessions =
      (⟨[], [], []⟩ : BotState).sessions ∧
    (press_o1 7 "G" none 100 (⟨[], [], []⟩ : BotState)).1.log =
      (⟨[], [], []⟩ : BotState).log ∧
    handle_reason 7 "u" "G" "call" (press_o1 7 "G" none 100 (⟨[], [], []⟩ : BotState)).1 =
      some { (press_o1 7 "G" none 100 (⟨[], [], []⟩ : BotState)).1 with
        sessions := dset 7 (.active ⟨.other, 100, some "call", "G", none, false⟩)
          (press_o1 7 "G" none 100 (⟨[], [], []⟩ : BotState)).1.sessions,
        log := (press_o1 7 "G" none 100 (⟨[], [], []⟩ : BotState)).1.log ++
          [⟨7, "u", "G", .other, .out, 100, none, some "call"⟩] }) :=
  ⟨by decide, c8_two_phase_other 7 "u" "G" none 100 "call"
    (⟨[], [], []⟩ : BotState) (by decide)⟩

/-- Claim C2 evaluation: with today = day 10 and the only event an
unmatched OUT for user 5 in yesterday's partition (day 9), the first
force-close run appends exactly one synthetic BACK to today's partition,
but the second run appends another: the window is replayed newest day
first (`range(check_days)` counts back from today), so the second run
sees the synthetic BACK in today's partition before — not after — the
older OUT, the BACK is dropped for lack of a pending candidate, the OUT
re-opens one, and user 5 is closed again.  Two BACK rows result where
the claim requires the second run to append nothing. -/
theorem c2_double_close :
    countBacksFor 5
        (fix_stuck_active_breaks 3 86400 10
          (fun day => if day = 9
            then [⟨5, "u", "A", .smoke, .out, 500, none, none⟩] else []) 10) = 1 ∧
    countBacksFor 5
        (fix_stuck_active_breaks 3 86460 10
          (fix_stuck_active_breaks 3 86400 10
            (fun day => if day = 9
              then [⟨5, "u", "A", .smoke, .out, 500, none, none⟩] else [])) 10) = 2 := by
  exact ⟨by decide, by decide⟩

/-! ### Lemmas about the reminder scheduler -/

theorem notifsFor_append (uid : Int) (a b : List Notification) :
    notifsFor uid (a ++ b) = notifsFor uid a ++ notifsFor uid b := by
  induction a with
  | nil => simp [notifsFor]
  | cons n ns ih => by_cases h : n.userId = uid <;> simp [notifsFor, h, ih]

theorem notifsFor_eq_nil (uid : Int) (l : List Notification)
    (h : ∀ n ∈ l, n.userId ≠ uid) : notifsFor uid l = [] := by
  induction l with
  | nil => rfl
  | cons n ns ih =>
    simp only [notifsFor]
    rw [if_neg (h n (List.mem_cons_self n ns))]
    exact ih fun m hm => h m (List.mem_cons_of_mem n hm)

theorem tick_entry_userId (now k : Int) (e : SessionEntry) (n : Notification)
    (h : (tick_entry now k e).2 = some n) : n.userId = k := by
  cases e with
  | inactive => simp [tick_entry] at h
  | active s =>
    by_cases hf : s.reminderSent = true
    · simp [tick_entry, hf] at h
    · simp only [Bool.not_eq_true] at hf
      cases hc : reminder_config s.breakType with
      | none => simp [tick_entry, hf, hc] at h
      | some th =>
        by_cases ha : th * 60 ≤ now - s.startTime
        · simp [tick_entry, hf, hc, ha] at h
          rw [← h]
        · simp [tick_entry, hf, hc, ha] at h

theorem cbr_notifs_userId (now : Int) (d : List (Int × SessionEntry))
    (n : Notification) (h : n ∈ (check_break_reminders now d).2) :
    n.userId ∈ d.map Prod.fst := by
  induction d with
  | nil => simp [check_break_reminders] at h
  | cons p rest ih =>
    obtain ⟨k, e⟩ := p
    simp only [check_break_reminders] at h
    rw [List.mem_append] at h
    rcases h with h | h
    · cases ho : (tick_entry now k e).2 with
      | none => rw [ho] at h; simp at h
      | some m =>
        rw [ho] at h
        obtain rfl : n = m := by simpa using h
        simp only [List.map_cons, List.mem_cons]
        exact Or.inl (tick_entry_userId now k e n ho)
    · simp only [List.map_cons, List.mem_cons]
      exact Or.inr (ih h)

theorem cbr_keys (now : Int) (d : List (Int × SessionEntry)) :
    (check_break_reminders now d).1.map Prod.fst = d.map Prod.fst := by
  induction d with
  | nil => rfl
  | cons p rest ih =>
    obtain ⟨k, e⟩ := p
    simp [check_break_reminders, ih]

theorem cbr_at_uid (now uid : Int) (d : List (Int × SessionEntry)) (e : SessionEntry)
    (hnd : (d.map Prod.fst).Nodup) (h : dget uid d = some e) :
    dget uid (check_break_reminders now d).1 = some (tick_entry now uid e).1 ∧
    notifsFor uid (check_break_reminders now d).2 = (tick_entry now uid e).2.toList := by
  induction d with
  | nil => simp [dget] at h
  | cons p rest ih =>
    obtain ⟨k, e'⟩ := p
    have hnd' : (k :: rest.map Prod.fst).Nodup := by
      simpa only [List.map_cons] using hnd
    have hnd0 := List.nodup_cons.mp hnd'
    simp only [check_break_reminders]
    by_cases hk : k = uid
    · subst hk
      simp [dget] at h
      subst h
      refine ⟨by simp [dget], ?_⟩
      rw [notifsFor_append]
      have h1 : notifsFor k (tick_entry now k e').2.toList =
          (tick_entry now k e').2.toList := by
        cases ho : (tick_entry now k e').2 with
        | none => rfl
        | some m => simp [notifsFor, tick_entry_userId now k e' m ho]
      have h2 : notifsFor k (check_break_reminders now rest).2 = [] :=
        notifsFor_eq_nil k _ fun n hn heq =>
          hnd0.1 (heq ▸ cbr_notifs_userId now rest n hn)
      rw [h1, h2, List.append_nil]
    · have hd' : dget uid rest = some e := by simpa [dget, hk] using h
      obtain ⟨ih1, ih2⟩ := ih hnd0.2 hd'
      refine ⟨by simp [dget, hk, ih1], ?_⟩
      rw [notifsFor_append]
      have h1 : notifsFor uid (tick_entry now k e').2.toList = [] := by
        cases ho : (tick_entry now k e').2 with
        | none => rfl
        | some m => simp [notifsFor, tick_entry_userId now k e' m ho, hk]
      rw [h1, List.nil_append, ih2]

theorem tick_entry_quiet (now uid : Int) (s : SessionData) (th : Int)
    (hflag : s.reminderSent = false) (hth : reminder_config s.breakType = some th)
    (hbelow : now - s.startTime < th * 60) :
    tick_entry now uid (.active s) = (.active s, none) := by
  have hne : ¬(th * 60 ≤ now - s.startTime) := by omega
  simp [tick_entry, hflag, hth, hne]

theorem tick_entry_dispatch (now uid : Int) (s : SessionData) (th : Int)
    (hflag : s.reminderSent = false) (hth : reminder_config s.breakType = some th)
    (hge : th * 60 ≤ now - s.startTime) :
    tick_entry now uid (.active s) =
      (.active { s with reminderSent := true },
        some ⟨s.groupChatId.getD uid, uid, s.breakType⟩) := by
  simp [tick_entry, hflag, hth, hge]

theorem tick_entry_latched (now uid : Int) (s : SessionData)
    (hflag : s.reminderSent = true) :
    tick_entry now uid (.active s) = (.active s, none) := by
  simp [tick_entry, hflag]

theorem tick_many_keys (ts : List Int) (d : List (Int × SessionEntry)) :
    (tick_many ts d).1.map Prod.fst = d.map Prod.fst := by
  induction ts generalizing d with
  | nil => rfl
  | cons t ts ih =>
    simp only [tick_many]
    rw [ih, cbr_keys]

theorem tick_many_append (a b : List Int) (d : List (Int × SessionEntry)) :
    tick_many (a ++ b) d =
      ((tick_many b (tick_many a d).1).1,
        (tick_many a d).2 ++ (tick_many b (tick_many a d).1).2) := by
  induction a generalizing d with
  | nil => simp [tick_many]
  | cons t a ih =>
    simp only [List.cons_append, tick_many, List.append_eq]
    rw [ih]
    simp [List.append_assoc]

theorem tick_many_latched (ts : List Int) (uid : Int)
    (d : List (Int × SessionEntry)) (s : SessionData)
    (hnd : (d.map Prod.fst).Nodup) (h : dget uid d = some (.active s))
    (hflag : s.reminderSent = true) :
    notifsFor uid (tick_many ts d).2 = [] ∧
    dget uid (tick_many ts d).1 = some (.active s) := by
  induction ts generalizing d with
  | nil => exact ⟨rfl, h⟩
  | cons t ts ih =>
    obtain ⟨h1, h2⟩ := cbr_at_uid t uid d (.active s) hnd h
    rw [tick_entry_latched t uid s hflag] at h1 h2
    dsimp only at h1 h2
    simp only [Option.toList] at h2
    have hnd2 : ((check_break_reminders t d).1.map Prod.fst).Nodup := by
      rw [cbr_keys]; exact hnd
    obtain ⟨ih1, ih2⟩ := ih _ hnd2 h1
    constructor
    · simp only [tick_many]
      rw [notifsFor_append, h2, List.nil_append]
      exact ih1
    · simp only [tick_many]
      exact ih2

theorem tick_many_quiet (ts : List Int) (uid : Int)
    (d : List (Int × SessionEntry)) (s : SessionData) (th : Int)
    (hnd : (d.map Prod.fst).Nodup) (h : dget uid d = some (.active s))
    (hflag : s.reminderSent = false)
    (hth : reminder_config s.breakType = some th)
    (hts : ∀ u ∈ ts, u - s.startTime < th * 60) :
    notifsFor uid (tick_many ts d).2 = [] ∧
    dget uid (tick_many ts d).1 = some (.active s) := by
  induction ts generalizing d with
  | nil => exact ⟨rfl, h⟩
  | cons t ts ih =>
    obtain ⟨h1, h2⟩ := cbr_at_uid t uid d (.active s) hnd h
    rw [tick_entry_quiet t uid s th hflag hth (hts t (List.mem_cons_self t ts))] at h1 h2
    dsimp only at h1 h2
    simp only [Option.toList] at h2
    have hnd2 : ((check_break_reminders t d).1.map Prod.fst).Nodup := by
      rw [cbr_keys]; exact hnd
    have hts' : ∀ v ∈ ts, v - s.startTime < th * 60 :=
      fun v hv => hts v (List.mem_cons_of_mem t hv)
    obtain ⟨ih1, ih2⟩ := ih _ hnd2 h1 hts'
    constructor
    · simp only [tick_many]
      rw [notifsFor_append, h2, List.nil_append]
      exact ih1
    · simp only [tick_many]
      exact ih2

/-- Claim C7: an active session of a category with a reminder threshold,
flag unset, receives exactly one notification over any tick trace made
of sub-threshold ticks, then a tick at or past the threshold, then
arbitrarily many further ticks; the notification is addressed to the
session's group chat when stored and to the person otherwise, and the
session's reminder flag ends (and stays) latched true. -/
theorem c7_reminder_once (uid : Int) (d : List (Int × SessionEntry))
    (s : SessionData) (th : Int) (pre post : List Int) (t : Int)
    (hnd : (d.map Prod.fst).Nodup)
    (h : dget uid d = some (.active s))
    (hflag : s.reminderSent = false)
    (hth : reminder_config s.breakType = some th)
    (hpre : ∀ u ∈ pre, u - s.startTime < th * 60)
    (ht : th * 60 ≤ t - s.startTime) :
    notifsFor uid (tick_many (pre ++ t :: post) d).2 =
      [⟨s.groupChatId.getD uid, uid, s.breakType⟩] ∧
    dget uid (tick_many (pre ++ t :: post) d).1 =
      some (.active { s with reminderSent := true }) := by
  obtain ⟨q1, q2⟩ := tick_many_quiet pre uid d s th hnd h hflag hth hpre
  have hnd1 : ((tick_many pre d).1.map Prod.fst).Nodup := by
    rw [tick_many_keys]; exact hnd
  obtain ⟨p1, p2⟩ := cbr_at_uid t uid (tick_many pre d).1 (.active s) hnd1 q2
  rw [tick_entry_dispatch t uid s th hflag hth ht] at p1 p2
  dsimp only at p1 p2
  simp only [Option.toList] at p2
  have hnd2 : ((check_break_reminders t (tick_many pre d).1).1.map Prod.fst).Nodup := by
    rw [cbr_keys, tick_many_keys]; exact hnd
  obtain ⟨m1, m2⟩ := tick_many_latched post uid _ { s with reminderSent := true } hnd2 p1 rfl
  rw [tick_many_append pre (t :: post) d]
  dsimp only
  constructor
  · rw [notifsFor_append, q1, List.nil_append]
    simp only [tick_many]
    rw [notifsFor_append, p2, m1, List.append_nil]
  · simp only [tick_many]
    exact m2

theorem c7_witness :
    (([(9, SessionEntry.active ⟨.smoke, 0, none, "C", none, false⟩)].map
        Prod.fst).Nodup ∧
      dget 9 [(9, SessionEntry.active ⟨.smoke, 0, none, "C", none, false⟩)] =
        some (.active ⟨.smoke, 0, none, "C", none, false⟩) ∧
      (⟨.smoke, 0, none, "C", none, false⟩ : SessionData).reminderSent = false ∧
      reminder_config BreakType.smoke = some 15 ∧
      (∀ u ∈ [(500 : Int)], u - 0 < 15 * 60) ∧
      (15 : Int) * 60 ≤ 900 - 0) ∧
    (notifsFor 9 (tick_many ([500] ++ 900 :: [1000, 2000])
        [(9, SessionEntry.active ⟨.smoke, 0, none, "C", none, false⟩)]).2 =
      [⟨(Option.getD none 9 : Int), 9, BreakType.smoke⟩] ∧
    dget 9 (tick_many ([500] ++ 900 :: [1000, 2000])
        [(9, SessionEntry.active ⟨.smoke, 0, none, "C", none, false⟩)]).1 =
      some (.active ⟨.smoke, 0, none, "C", none, true⟩)) :=
  ⟨⟨by decide, by decide, by decide, by decide, by decide, by decide⟩,
    c7_reminder_once 9 [(9, SessionEntry.active ⟨.smoke, 0, none, "C", none, false⟩)]
      ⟨.smoke, 0, none, "C", none, false⟩ 15 [500] [1000, 2000] 900
      (by decide) (by decide) (by decide) (by decide) (by decide) (by decide)⟩

/-- Claim C9 (amended): a scheduler tick never creates or deletes a
Session Table entry and never changes a key; each entry is either left
exactly as it is, or — this is the one mutation the claim as written
misses — an active session has its reminder-sent flag latched to true.
The counterexample shows the table is not always left unchanged. -/
theorem c9_tick_frame (now : Int) (d : List (Int × SessionEntry)) :
    List.Forall₂
      (fun e e' : Int × SessionEntry =>
        e'.1 = e.1 ∧ (e'.2 = e.2 ∨ ∃ a, e.2 = .active a ∧
          e'.2 = .active { a with reminderSent := true }))
      d (check_break_reminders now d).1 := by
  induction d with
  | nil => exact List.Forall₂.nil
  | cons p rest ih =>
    obtain ⟨k, e⟩ := p
    refine List.Forall₂.cons ⟨rfl, ?_⟩ ih
    cases e with
    | inactive => exact Or.inl rfl
    | active s =>
      cases hflag : s.reminderSent with
      | true =>
        left
        show (tick_entry now k (.active s)).1 = SessionEntry.active s
        rw [tick_entry_latched now k s hflag]
      | false =>
        cases hc : reminder_config s.breakType with
        | none =>
          left
          show (tick_entry now k (.active s)).1 = SessionEntry.active s
          simp [tick_entry, hflag, hc]
        | some th =>
          by_cases ha : th * 60 ≤ now - s.startTime
          · right
            refine ⟨s, rfl, ?_⟩
            show (tick_entry now k (.active s)).1 =
              SessionEntry.active { s with reminderSent := true }
            rw [tick_entry_dispatch now k s th hflag hc ha]
          · left
            show (tick_entry now k (.active s)).1 = SessionEntry.active s
            rw [tick_entry_quiet now k s th hflag hc (by omega)]

/-- Claim C9 counterexample: a tick at time 900 over a table holding a
15-minute-threshold Smoke session started at time 0 does change the
Session Table (the reminder flag is latched), so the tick does not leave
the table unchanged as the claim states. -/
theorem c9_counterexample :
    (check_break_reminders 900
        [(9, SessionEntry.active ⟨.smoke, 0, none, "A", none, false⟩)]).1 ≠
      [(9, SessionEntry.active ⟨.smoke, 0, none, "A", none, false⟩)] := by
  decide
